import Mathlib

/-!
Verification of `src/scripts/_vault_commands.py`: two helper functions that
parse JSON responses from a Vault server.  The embedding models Python's
dynamic semantics explicitly: JSON values are a Lean inductive, `json.loads`
is an executable recursive-descent parser, and the attribute errors and type
errors that Python raises on non-mapping values are modelled as error
constructors alongside `VaultBootstrapError`.
-/

namespace VaultCommands

/-- A decoded JSON document, as produced by Python's `json.loads`.
Integer literals decode to Python `int` (`num`); literals with a fractional
part or exponent decode to Python `float`, modelled exactly as the decimal
`m * 10 ^ e` (`decimal m e`) to keep floating point out of the embedding.
The non-standard constants `NaN`, `Infinity` and `-Infinity`, which
`json.loads` accepts by default, decode to the floats `nan` and
`inf neg`.  Objects are insertion-ordered key/value lists with unique
keys, matching Python `dict` semantics (a duplicate key replaces the
stored value). -/
inductive JsonValue where
  | null : JsonValue
  | bool (b : Bool) : JsonValue
  | num (n : Int) : JsonValue
  | decimal (m : Int) (e : Int) : JsonValue
  | nan : JsonValue
  | inf (neg : Bool) : JsonValue
  | str (s : String) : JsonValue
  | arr (elems : List JsonValue) : JsonValue
  | obj (entries : List (String × JsonValue)) : JsonValue

/-- JSON insignificant whitespace: space, tab, line feed, carriage return. -/
def skipWs : List Char → List Char
  | [] => []
  | c :: rest =>
    if c = ' ' ∨ c = '\t' ∨ c = '\n' ∨ c = '\r' then skipWs rest else c :: rest

/-- Value of a hexadecimal digit, if the character is one. -/
def hexVal (c : Char) : Option Nat :=
  if c.isDigit then some (c.toNat - 48)
  else if 'a' ≤ c ∧ c ≤ 'f' then some (c.toNat - 87)
  else if 'A' ≤ c ∧ c ≤ 'F' then some (c.toNat - 55)
  else none

/-- Parse exactly four hexadecimal digits (the payload of a \u escape). -/
def parseHex4 : List Char → Option (Nat × List Char)
  | a :: b :: c :: d :: rest =>
    match hexVal a, hexVal b, hexVal c, hexVal d with
    | some x, some y, some z, some w => some (((x * 16 + y) * 16 + z) * 16 + w, rest)
    | _, _, _, _ => none
  | _ => none

/-- Decimal value of a list of digit characters. -/
def digitsToNat (ds : List Char) : Nat :=
  ds.foldl (fun a c => a * 10 + (c.toNat - 48)) 0

/-- Body of a JSON string literal (after the opening quote), with the standard
escapes and \uXXXX (surrogate pairs combined, as Python does; a lone
surrogate, unrepresentable in a Lean `Char`, falls back to `Char.ofNat`).
`acc` holds the characters read so far, in reverse. -/
def parseStringBody : Nat → List Char → List Char → Option (String × List Char)
  | 0, _, _ => none
  | _ + 1, _, [] => none
  | fuel + 1, acc, c :: rest =>
    if c = '"' then some (String.mk acc.reverse, rest)
    else if c = '\\' then
      match rest with
      | [] => none
      | e :: rest2 =>
        if e = '"' then parseStringBody fuel ('"' :: acc) rest2
        else if e = '\\' then parseStringBody fuel ('\\' :: acc) rest2
        else if e = '/' then parseStringBody fuel ('/' :: acc) rest2
        else if e = 'b' then parseStringBody fuel ('\x08' :: acc) rest2
        else if e = 'f' then parseStringBody fuel ('\x0c' :: acc) rest2
        else if e = 'n' then parseStringBody fuel ('\n' :: acc) rest2
        else if e = 'r' then parseStringBody fuel ('\x0d' :: acc) rest2
        else if e = 't' then parseStringBody fuel ('\t' :: acc) rest2
        else if e = 'u' then
          match parseHex4 rest2 with
          | none => none
          | some (code, rest3) =>
            if 0xD800 ≤ code ∧ code ≤ 0xDBFF then
              match rest3 with
              | '\\' :: 'u' :: rest4 =>
                match parseHex4 rest4 with
                | some (lo, rest5) =>
                  if 0xDC00 ≤ lo ∧ lo ≤ 0xDFFF then
                    parseStringBody fuel
                      (Char.ofNat (0x10000 + (code - 0xD800) * 0x400 + (lo - 0xDC00)) :: acc) rest5
                  else parseStringBody fuel (Char.ofNat code :: acc) rest3
                | none => parseStringBody fuel (Char.ofNat code :: acc) rest3
              | _ => parseStringBody fuel (Char.ofNat code :: acc) rest3
            else parseStringBody fuel (Char.ofNat code :: acc) rest3
        else none
    else if c.toNat < 0x20 then none
    else parseStringBody fuel (c :: acc) rest

/-- Optional fraction part of a JSON number: `.` followed by one or more
digits, or nothing.  Returns the fraction digits (empty when absent). -/
def parseFracPart : List Char → Option (List Char × List Char)
  | '.' :: r =>
    let p := r.span (·.isDigit)
    if p.1.isEmpty then none else some (p.1, p.2)
  | other => some ([], other)

/-- Optional exponent part of a JSON number.  Returns the signed exponent,
the rest of the input, and whether an exponent was present. -/
def parseExpPart : List Char → Option (Int × List Char × Bool)
  | [] => some (0, [], false)
  | c :: rest =>
    if c = 'e' ∨ c = 'E' then
      let sr : Int × List Char :=
        match rest with
        | '+' :: r => (1, r)
        | '-' :: r => (-1, r)
        | other => (1, other)
      let p := sr.2.span (·.isDigit)
      if p.1.isEmpty then none
      else some (sr.1 * (digitsToNat p.1 : Int), p.2, true)
    else some (0, c :: rest, false)

/-- A JSON number per RFC 8259 (no leading zeros, no bare sign).  Without a
fraction or exponent Python yields an `int`; otherwise a `float`, modelled
as its exact decimal `decimal m e`. -/
def parseNumber (input : List Char) : Option (JsonValue × List Char) :=
  let p0 : Bool × List Char :=
    match input with
    | '-' :: rest => (true, rest)
    | other => (false, other)
  let ip := p0.2.span (·.isDigit)
  if ip.1.isEmpty then none
  else if 1 < ip.1.length ∧ ip.1.head? = some '0' then none
  else
    match parseFracPart ip.2 with
    | none => none
    | some (fds, s3) =>
      match parseExpPart s3 with
      | none => none
      | some (ex, s4, hasExp) =>
        let sgn : Int := if p0.1 then -1 else 1
        if fds.isEmpty ∧ ¬hasExp then
          some (.num (sgn * (digitsToNat ip.1 : Int)), s4)
        else
          some (.decimal (sgn * (digitsToNat (ip.1 ++ fds) : Int)) (ex - fds.length), s4)

/-- Insert a key into an object under construction, replacing the value in
place when the key already exists (Python `dict` update semantics). -/
def insertEntry : List (String × JsonValue) → String → JsonValue → List (String × JsonValue)
  | [], k, v => [(k, v)]
  | (k', v') :: rest, k, v =>
    if k' = k then (k, v) :: rest else (k', v') :: insertEntry rest k v

mutual

/-- Recursive-descent parser for a single JSON value, fuelled to make
termination evident.  Models the grammar accepted by Python's `json.loads`
with its default settings: objects, arrays, strings, numbers, `true`,
`false`, `null`, and the non-standard constants `NaN`, `Infinity` and
`-Infinity` that the default `parse_constant` admits. -/
def parseValue : Nat → List Char → Option (JsonValue × List Char)
  | 0, _ => none
  | fuel + 1, input =>
    match skipWs input with
    | [] => none
    | c :: rest =>
      if c = '\x7b' then
        match skipWs rest with
        | '\x7d' :: r => some (.obj [], r)
        | s1 => (parseEntries fuel s1 []).map (fun p => (JsonValue.obj p.1, p.2))
      else if c = '[' then
        match skipWs rest with
        | ']' :: r => some (.arr [], r)
        | s1 => (parseItems fuel s1 []).map (fun p => (JsonValue.arr p.1, p.2))
      else if c = '"' then
        (parseStringBody (rest.length + 1) [] rest).map (fun p => (JsonValue.str p.1, p.2))
      else if c = 't' then
        match rest with
        | 'r' :: 'u' :: 'e' :: r => some (.bool true, r)
        | _ => none
      else if c = 'f' then
        match rest with
        | 'a' :: 'l' :: 's' :: 'e' :: r => some (.bool false, r)
        | _ => none
      else if c = 'n' then
        match rest with
        | 'u' :: 'l' :: 'l' :: r => some (.null, r)
        | _ => none
      else if c = 'N' then
        match rest with
        | 'a' :: 'N' :: r => some (.nan, r)
        | _ => none
      else if c = 'I' then
        match rest with
        | 'n' :: 'f' :: 'i' :: 'n' :: 'i' :: 't' :: 'y' :: r => some (.inf false, r)
        | _ => none
      else if c = '-' then
        match rest with
        | 'I' :: 'n' :: 'f' :: 'i' :: 'n' :: 'i' :: 't' :: 'y' :: r => some (.inf true, r)
        | _ => parseNumber ('-' :: rest)
      else if c.isDigit then parseNumber (c :: rest)
      else none

/-- Members of a JSON object, positioned at the first key; ends at `}`. -/
def parseEntries : Nat → List Char → List (String × JsonValue) →
    Option (List (String × JsonValue) × List Char)
  | 0, _, _ => none
  | fuel + 1, input, acc =>
    match skipWs input with
    | '"' :: r =>
      match parseStringBody (r.length + 1) [] r with
      | none => none
      | some (key, r2) =>
        match skipWs r2 with
        | ':' :: r3 =>
          match parseValue fuel r3 with
          | none => none
          | some (v, r4) =>
            match skipWs r4 with
            | ',' :: r5 => parseEntries fuel r5 (insertEntry acc key v)
            | '\x7d' :: r5 => some (insertEntry acc key v, r5)
            | _ => none
        | _ => none
    | _ => none

/-- Elements of a JSON array, positioned at the first element; ends at `]`. -/
def parseItems : Nat → List Char → List JsonValue → Option (List JsonValue × List Char)
  | 0, _, _ => none
  | fuel + 1, input, acc =>
    match parseValue fuel input with
    | none => none
    | some (v, r) =>
      match skipWs r with
      | ',' :: r2 => parseItems fuel r2 (acc ++ [v])
      | ']' :: r2 => some (acc ++ [v], r2)
      | _ => none

end

/-- Python's `json.loads` with its default settings, modelled as a total
function: `none` is the `json.JSONDecodeError` case.  The payload must be a
single JSON value — including the non-standard `NaN`/`Infinity`/`-Infinity`
constants — surrounded only by whitespace.  (`json.loads` is
standard-library code, not part of this repository; the source calls it on
the raw payload and catches only `json.JSONDecodeError`.) -/
def json_loads (payload : String) : Option JsonValue :=
  match parseValue (2 * payload.length + 2) payload.data with
  | none => none
  | some (v, rest) =>
    match skipWs rest with
    | [] => some v
    | _ => none

/-- Outcome of a raised Python exception in the embedded functions:
`bootstrap` is `VaultBootstrapError` with its message; `attributeError`
models calling `.get` on a non-`dict`; `typeError` models `in` on a
non-container. -/
inductive PyError where
  | bootstrap (msg : String) : PyError
  | attributeError : PyError
  | typeError : PyError
deriving DecidableEq

/-- Whether an error is the repository's own `VaultBootstrapError`. -/
def PyError.isBootstrap : PyError → Bool
  | .bootstrap _ => true
  | _ => false

/-- First-match lookup in an object's entry list (keys are unique, so this
is Python `dict` lookup). -/
def dictGet (es : List (String × JsonValue)) (k : String) : Option JsonValue :=
  (es.find? (fun kv => kv.1 = k)).map (fun kv => kv.2)

/-- Python key-presence test on an object's entries (`k in d` for a dict). -/
def hasKey (es : List (String × JsonValue)) (k : String) : Bool :=
  es.any (fun kv => kv.1 = k)

/-- Python attribute access `v.get(k, dflt)`: defined on `dict` only; on any
other value Python raises `AttributeError`. -/
def pyDictGetDefault (v : JsonValue) (k : String) (dflt : JsonValue) :
    Except PyError JsonValue :=
  match v with
  | .obj es => .ok ((dictGet es k).getD dflt)
  | _ => .error .attributeError

/-- Does the character list `needle` start the character list `hay`? -/
def charsLeadWith : List Char → List Char → Bool
  | [], _ => true
  | _ :: _, [] => false
  | a :: as, b :: bs => a = b && charsLeadWith as bs

/-- Does `needle` occur as a contiguous substring of `hay`? -/
def strContainsSub (needle : List Char) : List Char → Bool
  | [] => needle.isEmpty
  | c :: rest => charsLeadWith needle (c :: rest) || strContainsSub needle rest

/-- Python `==` between a `str` and a decoded JSON value: true exactly for
an equal string (no cross-type equality involves `str`). -/
def pyStrEq (needle : String) : JsonValue → Bool
  | .str s => s = needle
  | _ => false

/-- Python membership `needle in v` for a `str` needle: key lookup on a
`dict`, substring test on a `str`, element equality on a `list`; on `int`,
`float`, `bool` and `None` Python raises `TypeError`. -/
def pyContains (needle : String) : JsonValue → Except PyError Bool
  | .obj es => .ok (hasKey es needle)
  | .str s => .ok (strContainsSub needle.data s.data)
  | .arr xs => .ok (xs.any (pyStrEq needle))
  | _ => .error .typeError

/-- Whether the decimal literal `m * 10 ^ e` converts to the double `0.0`
under Python's `float()` (correctly rounded to nearest, ties to even).  A
real `v` rounds to zero exactly when `|v| ≤ 2 ^ (-1075)`: the least
positive subnormal double is `2 ^ (-1074)`, and at the midpoint the tie
goes to the even candidate `0`.  For `e ≥ 0` this needs `m = 0`; for
`e < 0` the inequality `|m| * 10 ^ e ≤ 2 ^ (-1075)` is cleared of
denominators as `|m| * 2 ^ 1075 ≤ 10 ^ (-e)`. -/
def decimalIsZeroFloat (m e : Int) : Bool :=
  m = 0 ∨ (e < 0 ∧ m.natAbs * 2 ^ 1075 ≤ 10 ^ (-e).toNat)

/-- Python truthiness of a decoded JSON value (`bool(v)`): `None`, `False`,
zero (including a float literal that underflows to `0.0`, such as
`1e-400`), the empty string, the empty list and the empty dict are falsy;
`nan` and the infinities are truthy. -/
def JsonValue.truthy : JsonValue → Bool
  | .null => false
  | .bool b => b
  | .num n => n ≠ 0
  | .decimal m e => ¬decimalIsZeroFloat m e
  | .nan => true
  | .inf _ => true
  | .str s => s ≠ ""
  | .arr xs => ¬xs.isEmpty
  | .obj es => ¬es.isEmpty

/-- Whether a decoded JSON value is a text (`str`) value. -/
def JsonValue.isText : JsonValue → Bool
  | .str _ => true
  | _ => false

/-- Message raised when the verifier cannot decode the payload. -/
def verifyDecodeMsg : String :=
  "Failed to decode Vault response whilst verifying AppRole auth"

/-- Message raised when AppRole is not among the auth methods. -/
def notEnabledMsg : String :=
  "AppRole authentication is not enabled for the target Vault"

/-- Message raised when the extractor cannot decode the payload. -/
def generateDecodeMsg : String :=
  "Failed to decode Vault response whilst generating a secret-id"

/-- Message raised when the secret-id value is absent or falsy. -/
def missingSecretIdMsg : String :=
  "Vault response missing secret_id field"

/-- Embedding of `_ensure_approle_auth_enabled` from
`src/scripts/_vault_commands.py`: decode the payload (decode failure becomes
a `VaultBootstrapError`), take `data.get("data", {})`, require
`"approle" in auth_methods`, and return `auth_methods` unchanged. -/
def _ensure_approle_auth_enabled (payload : String) : Except PyError JsonValue :=
  match json_loads payload with
  | none => .error (.bootstrap verifyDecodeMsg)
  | some data =>
    match pyDictGetDefault data "data" (.obj []) with
    | .error e => .error e
    | .ok auth_methods =>
      match pyContains "approle" auth_methods with
      | .error e => .error e
      | .ok b =>
        if b then .ok auth_methods else .error (.bootstrap notEnabledMsg)

/-- Embedding of `_generate_secret_id` from
`src/scripts/_vault_commands.py`: decode the payload (decode failure becomes
a `VaultBootstrapError`), take `data.get("data", {}).get("secret_id")`
(absence yielding Python `None`, modelled as `null`), fail when the result
is falsy, and otherwise return it unconverted. -/
def _generate_secret_id (payload : String) : Except PyError JsonValue :=
  match json_loads payload with
  | none => .error (.bootstrap generateDecodeMsg)
  | some data =>
    match pyDictGetDefault data "data" (.obj []) with
    | .error e => .error e
    | .ok d =>
      match pyDictGetDefault d "secret_id" .null with
      | .error e => .error e
      | .ok secret_id =>
        if secret_id.truthy then .ok secret_id
        else .error (.bootstrap missingSecretIdMsg)

/-- C1: for every input string that parses as a JSON object whose `data`
field is a mapping containing the key `approle`, the Verifier succeeds and
returns that `data` mapping unchanged. -/
theorem c1_verifier_returns_data_mapping (s : String)
    (m d : List (String × JsonValue))
    (hparse : json_loads s = some (.obj m))
    (hdata : dictGet m "data" = some (.obj d))
    (hkey : hasKey d "approle" = true) :
    _ensure_approle_auth_enabled s = .ok (.obj d) := by
  unfold _ensure_approle_auth_enabled
  rw [hparse]
  simp only [pyDictGetDefault, hdata, Option.getD_some, pyContains, hkey, if_true]

/-- Witness for C1, spec scenario 1: the payload
`{"data": {"approle": {"type": "approle"}}}` makes the Verifier return the
mapping `{"approle": {"type": "approle"}}`. -/
theorem c1_witness :
    _ensure_approle_auth_enabled
        "\x7b\"data\": \x7b\"approle\": \x7b\"type\": \"approle\"\x7d\x7d\x7d" =
      .ok (.obj [("approle", .obj [("type", .str "approle")])]) :=
  c1_verifier_returns_data_mapping _
    [("data", .obj [("approle", .obj [("type", .str "approle")])])]
    [("approle", .obj [("type", .str "approle")])] rfl rfl rfl

/-- C2: for every input string that parses as a JSON object in which the
nested value `data.secret_id` is a non-empty string, the Extractor succeeds
and returns exactly that string value. -/
theorem c2_extractor_returns_secret (s : String)
    (m d : List (String × JsonValue)) (v : String)
    (hparse : json_loads s = some (.obj m))
    (hdata : dictGet m "data" = some (.obj d))
    (hsid : dictGet d "secret_id" = some (.str v))
    (hne : v ≠ "") :
    _generate_secret_id s = .ok (.str v) := by
  unfold _generate_secret_id
  rw [hparse]
  simp only [pyDictGetDefault, hdata, Option.getD_some, hsid, JsonValue.truthy]
  simp [hne]

/-- Witness for C2, spec scenario 4: the payload
`{"data": {"secret_id": "abc123"}}` makes the Extractor return `"abc123"`. -/
theorem c2_witness :
    _generate_secret_id "\x7b\"data\": \x7b\"secret_id\": \"abc123\"\x7d\x7d" =
      .ok (.str "abc123") :=
  c2_extractor_returns_secret _
    [("data", .obj [("secret_id", .str "abc123")])]
    [("secret_id", .str "abc123")] "abc123" rfl rfl rfl (by decide)

/-- C3: for every input string that parses as a JSON object whose `data`
mapping (defaulting to an empty mapping if the `data` field is absent) does
not contain the key `approle`, the Verifier fails with a `BootstrapError`
carrying exactly the message
"AppRole authentication is not enabled for the target Vault". -/
theorem c3_verifier_not_enabled (s : String)
    (m d : List (String × JsonValue))
    (hparse : json_loads s = some (.obj m))
    (hdata : (dictGet m "data").getD (.obj []) = .obj d)
    (hkey : hasKey d "approle" = false) :
    _ensure_approle_auth_enabled s =
      .error (.bootstrap "AppRole authentication is not enabled for the target Vault") := by
  unfold _ensure_approle_auth_enabled
  rw [hparse]
  simp only [pyDictGetDefault, hdata, pyContains, hkey, notEnabledMsg]
  rfl

/-- Witness for C3, spec scenario 2: the payload `{"data": {}}` makes the
Verifier fail with the "not enabled" message. -/
theorem c3_witness :
    _ensure_approle_auth_enabled "\x7b\"data\": \x7b\x7d\x7d" =
      .error (.bootstrap "AppRole authentication is not enabled for the target Vault") :=
  c3_verifier_not_enabled _ [("data", .obj [])] [] rfl rfl rfl

/-- C4: for every input string that parses as a JSON object in which the
nested value `data.secret_id` is absent, empty, or otherwise falsy
(including the case where the `data` field itself is absent), the Extractor
fails with a `BootstrapError` carrying exactly the message
"Vault response missing secret_id field". -/
theorem c4_extractor_missing (s : String)
    (m d : List (String × JsonValue))
    (hparse : json_loads s = some (.obj m))
    (hdata : (dictGet m "data").getD (.obj []) = .obj d)
    (hfalsy : ((dictGet d "secret_id").getD .null).truthy = false) :
    _generate_secret_id s =
      .error (.bootstrap "Vault response missing secret_id field") := by
  unfold _generate_secret_id
  rw [hparse]
  simp only [pyDictGetDefault, hdata, hfalsy, missingSecretIdMsg]
  rfl

set_option exponentiation.threshold 1200 in
/-- Witness for C4 at a falsy non-empty literal: the payload
`{"data": {"secret_id": 1e-400}}` decodes `secret_id` to a float that
underflows to `0.0`, so the Extractor fails with the "missing secret_id"
message. -/
theorem c4_witness :
    _generate_secret_id "\x7b\"data\": \x7b\"secret_id\": 1e-400\x7d\x7d" =
      .error (.bootstrap "Vault response missing secret_id field") :=
  c4_extractor_missing _
    [("data", .obj [("secret_id", .decimal 1 (-400))])]
    [("secret_id", .decimal 1 (-400))] rfl rfl rfl

/-- C5: for every input string that is not valid JSON, the Verifier fails
with a `BootstrapError` carrying exactly the message
"Failed to decode Vault response whilst verifying AppRole auth", and the
Extractor fails with a `BootstrapError` carrying exactly the message
"Failed to decode Vault response whilst generating a secret-id". -/
theorem c5_decode_errors (s : String)
    (hbad : json_loads s = none) :
    _ensure_approle_auth_enabled s =
        .error (.bootstrap "Failed to decode Vault response whilst verifying AppRole auth") ∧
      _generate_secret_id s =
        .error (.bootstrap "Failed to decode Vault response whilst generating a secret-id") := by
  constructor
  · unfold _ensure_approle_auth_enabled
    rw [hbad]
    rfl
  · unfold _generate_secret_id
    rw [hbad]
    rfl

/-- Witness for C5, spec scenario 3: the payload `not json` makes both
functions fail with their respective decode messages. -/
theorem c5_witness :
    _ensure_approle_auth_enabled "not json" =
        .error (.bootstrap "Failed to decode Vault response whilst verifying AppRole auth") ∧
      _generate_secret_id "not json" =
        .error (.bootstrap "Failed to decode Vault response whilst generating a secret-id") :=
  c5_decode_errors "not json" rfl

/-- C6 fails as stated: on the input `[]`, which is valid JSON but not a
JSON object, the Verifier fails with an `AttributeError` (from calling
`.get` on a `list`), which is not a `BootstrapError`. -/
theorem c6_counterexample :
    _ensure_approle_auth_enabled "[]" = .error .attributeError ∧
      PyError.isBootstrap .attributeError = false :=
  ⟨rfl, rfl⟩

/-- C6 amended: whenever the input is not valid JSON, or parses to a JSON
object whose `data` field (defaulting to an empty mapping) is a mapping,
every failure of the Verifier or the Extractor is a `BootstrapError`.  The
restriction is necessary: outside this set a non-Bootstrap Python error can
escape, as the counterexample on the payload `[]` shows. -/
theorem c6_failures_are_bootstrap (s : String)
    (h : json_loads s = none ∨
      ∃ m d, json_loads s = some (.obj m) ∧ (dictGet m "data").getD (.obj []) = .obj d) :
    (∀ e, _ensure_approle_auth_enabled s = .error e → e.isBootstrap = true) ∧
      (∀ e, _generate_secret_id s = .error e → e.isBootstrap = true) := by
  rcases h with hbad | ⟨m, d, hparse, hdata⟩
  · constructor <;> intro e he
    · unfold _ensure_approle_auth_enabled at he
      rw [hbad] at he
      simp only [Except.error.injEq] at he
      rw [← he]
      rfl
    · unfold _generate_secret_id at he
      rw [hbad] at he
      simp only [Except.error.injEq] at he
      rw [← he]
      rfl
  · constructor <;> intro e he
    · unfold _ensure_approle_auth_enabled at he
      rw [hparse] at he
      simp only [pyDictGetDefault, hdata, pyContains] at he
      cases hk : hasKey d "approle" <;> simp [hk] at he
      · rw [← he]
        rfl
    · unfold _generate_secret_id at he
      rw [hparse] at he
      simp only [pyDictGetDefault, hdata] at he
      cases ht : ((dictGet d "secret_id").getD .null).truthy <;> simp [ht] at he
      · rw [← he]
        rfl

/-- Witness for the amended C6: applied to the non-JSON input `oops`, whose
failure carries the verifier decode message and is a `BootstrapError`. -/
theorem c6_witness :
    PyError.isBootstrap (.bootstrap verifyDecodeMsg) = true :=
  (c6_failures_are_bootstrap "oops" (Or.inl rfl)).1 (.bootstrap verifyDecodeMsg) rfl

/-- C7 fails as stated: on the payload `{"data": {"secret_id": 7}}` the
Extractor succeeds but returns the integer `7` unconverted — Python never
applies `str()` to the value — so the result is not text. -/
theorem c7_counterexample :
    _generate_secret_id "\x7b\"data\": \x7b\"secret_id\": 7\x7d\x7d" = .ok (.num 7) ∧
      JsonValue.isText (.num 7) = false :=
  ⟨rfl, rfl⟩

/-- C7 amended: for every input string that parses as a JSON object in
which the nested value `data.secret_id` is present and truthy (of any JSON
type), the Extractor succeeds and returns exactly the extracted value,
unconverted; the result is text only when the stored value is itself a
string. -/
theorem c7_extractor_returns_truthy_value (s : String)
    (m d : List (String × JsonValue)) (v : JsonValue)
    (hparse : json_loads s = some (.obj m))
    (hdata : (dictGet m "data").getD (.obj []) = .obj d)
    (hsid : dictGet d "secret_id" = some v)
    (htruthy : v.truthy = true) :
    _generate_secret_id s = .ok v := by
  unfold _generate_secret_id
  rw [hparse]
  simp only [pyDictGetDefault, hdata, hsid, Option.getD_some, htruthy, if_true]

/-- Witness for the amended C7: the payload `{"data": {"secret_id": true}}`
makes the Extractor return the boolean `true`, unconverted. -/
theorem c7_witness :
    _generate_secret_id "\x7b\"data\": \x7b\"secret_id\": true\x7d\x7d" =
      .ok (.bool true) :=
  c7_extractor_returns_truthy_value _
    [("data", .obj [("secret_id", .bool true)])]
    [("secret_id", .bool true)] (.bool true) rfl rfl rfl rfl

/-- C8: when the `data` field of a parsed JSON object holds a non-mapping
value, the Verifier applies Python membership to it: for a string value it
succeeds exactly when `approle` occurs as a substring (and fails with the
"not enabled" message otherwise), for an array value it succeeds when the
string `approle` is an element, and in the success case it returns that
non-mapping value. -/
theorem c8_membership_on_non_mapping (s : String)
    (m : List (String × JsonValue))
    (hparse : json_loads s = some (.obj m)) :
    (∀ t : String, dictGet m "data" = some (.str t) →
      (strContainsSub "approle".data t.data = true →
        _ensure_approle_auth_enabled s = .ok (.str t)) ∧
      (strContainsSub "approle".data t.data = false →
        _ensure_approle_auth_enabled s =
          .error (.bootstrap notEnabledMsg))) ∧
    (∀ xs : List JsonValue, dictGet m "data" = some (.arr xs) →
      JsonValue.str "approle" ∈ xs →
        _ensure_approle_auth_enabled s = .ok (.arr xs)) := by
  constructor
  · intro t hdata
    constructor <;> intro hsub <;>
      · unfold _ensure_approle_auth_enabled
        rw [hparse]
        simp only [pyDictGetDefault, hdata, Option.getD_some, pyContains, hsub,
          if_true]
        try rfl
  · intro xs hdata hmem
    have hany : xs.any (pyStrEq "approle") = true :=
      List.any_eq_true.mpr ⟨_, hmem, by simp [pyStrEq]⟩
    unfold _ensure_approle_auth_enabled
    rw [hparse]
    simp only [pyDictGetDefault, hdata, Option.getD_some, pyContains, hany, if_true]

/-- Witness for C8: the payload `{"data": "xapprolex"}` — where `approle`
is a proper substring of the string value — makes the Verifier succeed and
return the string `"xapprolex"`, not a mapping. -/
theorem c8_witness :
    _ensure_approle_auth_enabled "\x7b\"data\": \"xapprolex\"\x7d" =
      .ok (.str "xapprolex") :=
  ((c8_membership_on_non_mapping "\x7b\"data\": \"xapprolex\"\x7d"
    [("data", .str "xapprolex")] rfl).1 "xapprolex" rfl).1 rfl

/-- C9: both functions are deterministic pure functions of the payload:
equal inputs yield equal outcomes (same returned value or same error with
the same message), and the embedding reads or writes no outside state. -/
theorem c9_deterministic (s t : String) (h : s = t) :
    _ensure_approle_auth_enabled s = _ensure_approle_auth_enabled t ∧
      _generate_secret_id s = _generate_secret_id t := by
  subst h
  exact ⟨rfl, rfl⟩

/-- Witness for C9 at the concrete payload `{}`. -/
theorem c9_witness :
    _ensure_approle_auth_enabled "\x7b\x7d" = _ensure_approle_auth_enabled "\x7b\x7d" ∧
      _generate_secret_id "\x7b\x7d" = _generate_secret_id "\x7b\x7d" :=
  c9_deterministic "\x7b\x7d" "\x7b\x7d" rfl

/-- On any `Except` value, exactly one of the two outcome shapes holds. -/
theorem except_two_outcomes {α β : Type} (x : Except α β) :
    Xor' (∃ v, x = .ok v) (∃ e, x = .error e) := by
  cases x with
  | ok v =>
    exact Or.inl ⟨⟨v, rfl⟩, by rintro ⟨e, he⟩; exact Except.noConfusion he⟩
  | error e =>
    exact Or.inr ⟨⟨e, rfl⟩, by rintro ⟨v, hv⟩; exact Except.noConfusion hv⟩

/-- C10: for every input string, each function terminates (it is a total
function in the embedding) with exactly one of two exit outcomes: success
with a value, or failure with an error. -/
theorem c10_exactly_two_outcomes (s : String) :
    Xor' (∃ v, _ensure_approle_auth_enabled s = .ok v)
        (∃ e, _ensure_approle_auth_enabled s = .error e) ∧
      Xor' (∃ v, _generate_secret_id s = .ok v)
        (∃ e, _generate_secret_id s = .error e) :=
  ⟨except_two_outcomes _, except_two_outcomes _⟩

end VaultCommands
